import Mathlib

/-!
Verification of the AppAWS real-time location pipeline.

The backend ingests UDP datagrams carrying JSON location reports
(`src/backend/src/services/udpService.js`), validates them, persists them
through `LocationModel.create` (`src/backend/src/models/locationModel.js`),
and broadcasts a projection of the stored row to every connected WebSocket
client (`src/backend/src/services/socketService.js`).  The frontend hook
(`src/hooks/useSocket.js`) maintains the client-side connection state
machine, subscription registry and keepalive.

JavaScript values relevant to the pipeline are embedded as `JSVal`
(numbers as rationals, strings, booleans, `null`); an absent object field
is `Option.none`.  Stateful handlers are embedded as explicit
state-passing functions that also return the list of observable effects
(store calls, per-session sends, log lines).
-/

set_option autoImplicit false

namespace AppAWS

/-- A JavaScript value as it can appear in a decoded JSON payload.
JS numbers are modelled as rationals. -/
inductive JSVal where
  | num (q : ℚ)
  | str (s : String)
  | bool (b : Bool)
  | null
  deriving DecidableEq

/-- JavaScript truthiness of a `JSVal` (used by the `x || null` idiom in
`LocationModel.create`): `0`, the empty string, `false` and `null` are falsy. -/
def jsTruthy : JSVal → Bool
  | .num q => q ≠ 0
  | .str s => s ≠ ""
  | .bool b => b
  | .null => false

/-- `x || null` on an optional object field: a falsy or absent value
becomes SQL `NULL` (modelled as `none`); a truthy value is kept. -/
def orNull : Option JSVal → Option JSVal
  | some v => if jsTruthy v then some v else none
  | none => none

/-- A decoded UDP payload: the JSON object with its optional fields
`lat`, `lon`, `time`, `acc`, `alt`, `spd`, `prov`.  `none` means the
field is absent (or `undefined`). -/
structure Payload where
  lat : Option JSVal := none
  lon : Option JSVal := none
  time : Option JSVal := none
  acc : Option JSVal := none
  alt : Option JSVal := none
  spd : Option JSVal := none
  prov : Option JSVal := none
  deriving DecidableEq

/-- The `data[field] === undefined || data[field] === null` test of
`validateLocationData`. -/
def isMissing : Option JSVal → Bool
  | none => true
  | some .null => true
  | some _ => false

/-- The `typeof data.field === 'number'` test. -/
def isNumber : Option JSVal → Bool
  | some (.num _) => true
  | _ => false

/-- Numeric value of a field already known to hold a number. -/
def numVal : Option JSVal → ℚ
  | some (.num q) => q
  | _ => 0

/-- `UDPService.validateLocationData` (udpService.js lines 77-110):
required-field presence for `lat`, `lon`, `time`; then numeric type
checks; then range checks on `lat` and `lon`. -/
def validateLocationData (data : Payload) : Bool :=
  if isMissing data.lat then false
  else if isMissing data.lon then false
  else if isMissing data.time then false
  else if ¬ isNumber data.lat ∨ ¬ isNumber data.lon then false
  else if ¬ isNumber data.time then false
  else if numVal data.lat < -90 ∨ numVal data.lat > 90 then false
  else if numVal data.lon < -180 ∨ numVal data.lon > 180 then false
  else true

/-- A row of `location_data` as returned by `LocationModel.create`'s
`RETURNING *`: the inserted values plus the server-assigned `id` and
`created_at`. -/
structure StoredLocation where
  id : ℕ
  latitude : Option JSVal
  longitude : Option JSVal
  timestamp_value : Option JSVal
  accuracy : Option JSVal
  altitude : Option JSVal
  speed : Option JSVal
  provider : Option JSVal
  created_at : ℤ
  deriving DecidableEq

/-- `LocationModel.create` (locationModel.js lines 7-32): inserts
`lat`, `lon`, `time` as given and each optional field through `|| null`;
the engine assigns `id` and `created_at`. -/
def LocationModel.create (locationData : Payload) (id : ℕ) (created_at : ℤ) :
    StoredLocation :=
  { id := id
    latitude := locationData.lat
    longitude := locationData.lon
    timestamp_value := locationData.time
    accuracy := orNull locationData.acc
    altitude := orNull locationData.alt
    speed := orNull locationData.spd
    provider := orNull locationData.prov
    created_at := created_at }

/-- The `frontendData` object built in the UDP message handler
(udpService.js lines 36-42): exactly the five fields `id`, `latitude`,
`longitude`, `timestamp_value`, `created_at` of the stored row. -/
structure FrontendData where
  id : ℕ
  latitude : Option JSVal
  longitude : Option JSVal
  timestamp_value : Option JSVal
  created_at : ℤ
  deriving DecidableEq

/-- Projection of a stored row to the `frontendData` object. -/
def frontendProjection (savedLocation : StoredLocation) : FrontendData :=
  { id := savedLocation.id
    latitude := savedLocation.latitude
    longitude := savedLocation.longitude
    timestamp_value := savedLocation.timestamp_value
    created_at := savedLocation.created_at }

/-- The message object built by `SocketService.broadcastNewLocation`
(socketService.js lines 106-116). -/
structure LocationUpdateMessage where
  type : String
  data : FrontendData
  timestamp : ℤ
  totalClients : ℕ
  deriving DecidableEq

/-- An observable effect of processing one datagram. -/
inductive Effect where
  | storeCall (p : Payload)
  | send (sid : String) (msg : LocationUpdateMessage)
  | log (s : String)
  deriving DecidableEq

/-- `SocketService.broadcastNewLocation`: wraps the payload with
`type`, delivery timestamp and current client count, and `io.emit`s it,
i.e. sends it to every currently connected session. -/
def broadcastNewLocation (sessions : List String) (clientCount : ℕ)
    (now : ℤ) (locationData : FrontendData) : List Effect :=
  sessions.map fun sid =>
    Effect.send sid
      { type := "new-location"
        data := locationData
        timestamp := now
        totalClients := clientCount }

/-- Outcome of `LocationController.createLocation` / `LocationModel.create`:
either the stored row or a storage failure (the thrown error). -/
inductive StoreResult where
  | ok (savedLocation : StoredLocation)
  | err
  deriving DecidableEq

/-- The UDP `message` handler (udpService.js lines 15-56) for one
datagram.  `msg = none` models a JSON parse failure (the `SyntaxError`
branch of the `catch`); otherwise the decoded payload is validated,
stored, and on success broadcast.  `sessions` is the set of connected
sessions at the moment `broadcastNewLocation` runs.  The handler is a
total function: every branch returns, so the listener never crashes. -/
def processDatagram (store : Payload → StoreResult) (sessions : List String)
    (clientCount : ℕ) (now : ℤ) (msg : Option Payload) : List Effect :=
  match msg with
  | none => [Effect.log "JSON invalido recibido"]
  | some locationData =>
    if ¬ validateLocationData locationData then
      [Effect.log "Datos de ubicacion invalidos"]
    else
      match store locationData with
      | .err => [Effect.storeCall locationData, Effect.log "Error procesando mensaje UDP"]
      | .ok savedLocation =>
        Effect.storeCall locationData ::
          broadcastNewLocation sessions clientCount now
            (frontendProjection savedLocation)

/-- Sequential processing of a stream of datagrams by the listener:
each datagram is handled independently of the others. -/
def processAll (store : Payload → StoreResult) (sessions : List String)
    (clientCount : ℕ) (now : ℤ) : List (Option Payload) → List Effect
  | [] => []
  | d :: ds =>
    processDatagram store sessions clientCount now d ++
      processAll store sessions clientCount now ds

/-- Whether an effect is a store call. -/
def Effect.isStore : Effect → Bool
  | .storeCall _ => true
  | _ => false

/-- Whether an effect is a send to some session. -/
def Effect.isSend : Effect → Bool
  | .send _ _ => true
  | _ => false

/-! ## Connection registry and reaper (socketService.js) -/

/-- The per-client record kept in `connectedClients`. -/
structure ClientInfo where
  connectedAt : ℚ
  lastActivity : ℚ
  deriving DecidableEq

/-- The mutable state of `SocketService`: the `connectedClients` map
(association list with unique keys, insertion-ordered like a JS `Map`)
and the ids of the sockets currently open in `io.sockets.sockets`. -/
structure SocketServiceState where
  connectedClients : List (String × ClientInfo)
  sockets : List String
  deriving DecidableEq

/-- The `inactiveMinutes > maxInactiveMinutes` test of
`cleanupInactiveConnections`, with times in milliseconds. -/
def isInactive (now maxInactiveMinutes : ℚ) (info : ClientInfo) : Bool :=
  (now - info.lastActivity) / (1000 * 60) > maxInactiveMinutes

/-- One iteration of the `cleanupInactiveConnections` loop body: if the
entry is inactive, disconnect its socket when still open and delete the
entry from `connectedClients`, counting it as cleaned. -/
def cleanupStep (now maxInactiveMinutes : ℚ)
    (acc : SocketServiceState × ℕ) (entry : String × ClientInfo) :
    SocketServiceState × ℕ :=
  if isInactive now maxInactiveMinutes entry.2 then
    ({ connectedClients :=
        (acc.1.connectedClients.filter fun p => p.1 ≠ entry.1)
       sockets :=
        if acc.1.sockets.any fun s => s = entry.1 then
          acc.1.sockets.filter fun s => s ≠ entry.1
        else acc.1.sockets },
     acc.2 + 1)
  else acc

/-- `SocketService.cleanupInactiveConnections` (socketService.js lines
151-172): sweeps the `connectedClients` entries, evicting every session
whose inactivity exceeds `maxInactiveMinutes`, and returns the new state
together with the number of cleaned sessions. -/
def cleanupInactiveConnections (now maxInactiveMinutes : ℚ)
    (st : SocketServiceState) : SocketServiceState × ℕ :=
  st.connectedClients.foldl (cleanupStep now maxInactiveMinutes) (st, 0)

/-- A server-side effect of the ping handler. -/
inductive ServerEffect where
  | pong (sid : String) (timestamp : ℚ)
  deriving DecidableEq

/-- The `ping` handler (socketService.js lines 60-65): if the session is
known, set its `lastActivity` to now (the `touch`); in every case emit a
`pong` carrying the server time back to that socket. -/
def handlePing (now : ℚ) (sid : String) (st : SocketServiceState) :
    SocketServiceState × List ServerEffect :=
  let st1 :=
    if st.connectedClients.any fun p => p.1 = sid then
      { st with
          connectedClients := st.connectedClients.map fun p =>
            if p.1 = sid then (p.1, { p.2 with lastActivity := now }) else p }
    else st
  (st1, [ServerEffect.pong sid now])

/-! ## Client-side hook (src/hooks/useSocket.js) -/

/-- The `connectionStatus` strings used by the hook. -/
inductive ConnStatus where
  | disconnected
  | connecting
  | connected
  | error
  deriving DecidableEq

/-- The hook's connection-related state:
`isConnected`, `connectionStatus`, `lastUpdate`, `error`. -/
structure HookState where
  isConnected : Bool
  connectionStatus : ConnStatus
  lastUpdate : Option ℤ
  error : Option String
  deriving DecidableEq

/-- Initial hook state (`useState` initialisers). -/
def initialHookState : HookState :=
  { isConnected := false
    connectionStatus := .disconnected
    lastUpdate := none
    error := none }

/-- The socket lifecycle events whose handlers `createSocket` registers. -/
inductive SocketEvent where
  | connect
  | disconnect (reason : String)
  | connectError (msg : String)
  | reconnect (attempt : ℕ)
  | reconnectAttempt (attempt : ℕ)
  | reconnectError
  | reconnectFailed
  deriving DecidableEq

/-- A client-side effect of a lifecycle handler. -/
inductive ClientEffect where
  | emitEvent (name : String) (data : Option JSVal)
  | callConnect
  deriving DecidableEq

/-- The lifecycle handlers registered by `createSocket` (useSocket.js
lines 52-109), as one transition function on the hook state returning
the updated state and the handler's side effects. -/
def handleSocketEvent (now : ℤ) (st : HookState) :
    SocketEvent → HookState × List ClientEffect
  | .connect =>
    ({ isConnected := true
       connectionStatus := .connected
       error := none
       lastUpdate := some now },
     [ClientEffect.emitEvent "request-initial-data" none])
  | .disconnect reason =>
    ({ st with
        isConnected := false
        connectionStatus := .disconnected
        lastUpdate := some now },
     if reason = "io server disconnect" then [ClientEffect.callConnect] else [])
  | .connectError msg =>
    ({ st with
        isConnected := false
        connectionStatus := .error
        error := some (if msg = "" then "Error de conexion" else msg)
        lastUpdate := some now },
     [])
  | .reconnect _ =>
    ({ isConnected := true
       connectionStatus := .connected
       error := none
       lastUpdate := some now },
     [ClientEffect.emitEvent "request-initial-data" none])
  | .reconnectAttempt _ =>
    ({ st with connectionStatus := .connecting }, [])
  | .reconnectError =>
    ({ st with connectionStatus := .error, error := some "Error de reconexion" }, [])
  | .reconnectFailed =>
    ({ st with
        connectionStatus := .disconnected
        error := some "No se pudo reconectar al servidor" },
     [])

/-- The transport-level `connected` flag of the underlying socket. -/
structure ClientSocket where
  connected : Bool
  deriving DecidableEq

/-- The hook's `emit` function (useSocket.js lines 155-162): sends only
when a socket exists and its transport is connected; returns whether the
send was attempted, together with the send effect (if any). -/
def emitFn (sock : Option ClientSocket) (eventName : String)
    (data : Option JSVal) : Bool × List ClientEffect :=
  match sock with
  | some s =>
    if s.connected then (true, [ClientEffect.emitEvent eventName data])
    else (false, [])
  | none => (false, [])

/-! ## Subscription registry (`on` / the returned unsubscribe closure) -/

/-- State of the subscription machinery: the handlers currently attached
to the socket (in attachment order; socket.io allows several per event)
and the hook's `listenersRef` map (one tracked handler per event name).
Handlers are identified by a numeric id (reference identity). -/
structure ListenersState where
  socketHandlers : List (String × ℕ)
  listeners : List (String × ℕ)
  deriving DecidableEq

/-- `socket.off(event, fn)`: removes the first attached occurrence of
exactly this (event, handler) pair, if any. -/
def removeFirst : List (String × ℕ) → String → ℕ → List (String × ℕ)
  | [], _, _ => []
  | x :: xs, e, h => if x = (e, h) then xs else x :: removeFirst xs e h

/-- Lookup in the `listenersRef` map. -/
def mapGet (m : List (String × ℕ)) (e : String) : Option ℕ :=
  (m.find? fun x => x.1 = e).map fun x => x.2

/-- `Map.set`: replace the value under an existing key, else append. -/
def mapSet (m : List (String × ℕ)) (e : String) (h : ℕ) :
    List (String × ℕ) :=
  if m.any fun x => x.1 = e then
    m.map fun x => if x.1 = e then (e, h) else x
  else m ++ [(e, h)]

/-- `Map.delete`: remove the entry under the key, if present. -/
def mapDelete (m : List (String × ℕ)) (e : String) : List (String × ℕ) :=
  m.filter fun x => x.1 ≠ e

/-- The unsubscribe closure returned by `on`: it captures the event name
and the handler it registered. -/
structure Unsub where
  eventName : String
  handler : ℕ
  deriving DecidableEq

/-- The hook's `on` function (useSocket.js lines 164-185), in the case
where the socket exists: detach the previously tracked handler for the
event (if any) from the socket, attach the new handler, record it in
`listenersRef`, and return the unsubscribe closure. -/
def onEvent (st : ListenersState) (e : String) (h : ℕ) : ListenersState × Unsub :=
  let st1 :=
    match mapGet st.listeners e with
    | some oldHandler =>
      { st with socketHandlers := removeFirst st.socketHandlers e oldHandler }
    | none => st
  ({ socketHandlers := st1.socketHandlers ++ [(e, h)]
     listeners := mapSet st1.listeners e h },
   { eventName := e, handler := h })

/-- Running the unsubscribe closure returned by `on` (useSocket.js lines
177-182): `socket.off(eventName, handler)` then
`listenersRef.delete(eventName)` — unconditionally, with no check that
the tracked handler is still this closure's handler. -/
def runUnsub (u : Unsub) (st : ListenersState) : ListenersState :=
  { socketHandlers := removeFirst st.socketHandlers u.eventName u.handler
    listeners := mapDelete st.listeners u.eventName }

/-- The handlers currently attached to the socket for one event name. -/
def handlersFor (st : ListenersState) (e : String) : List ℕ :=
  (st.socketHandlers.filter fun x => x.1 = e).map fun x => x.2

/-- Keys of the registry entries past the inactivity threshold. -/
def expiredKeys (now maxInactiveMinutes : ℚ)
    (l : List (String × ClientInfo)) : List String :=
  (l.filter fun p => isInactive now maxInactiveMinutes p.2).map fun p => p.1

/-- A concrete valid payload (the end-to-end scenario's coordinates). -/
def validPayload : Payload :=
  { lat := some (.num 37)
    lon := some (.num (-122))
    time := some (.num 1700000000000) }

/-- A concrete invalid payload (latitude 95 is out of range). -/
def invalidLatPayload : Payload :=
  { lat := some (.num 95)
    lon := some (.num 0)
    time := some (.num 1700000000000) }

/-- A report carrying accuracy 0, altitude 3, speed 0 and an empty
provider string. -/
def falsyOptionalsPayload : Payload :=
  { lat := some (.num 37)
    lon := some (.num (-122))
    time := some (.num 1700000000000)
    acc := some (.num 0)
    alt := some (.num 3)
    spd := some (.num 0)
    prov := some (.str "") }

/-! ## Theorems -/

/-- Characterisation of the validator: it accepts exactly the payloads
whose three required fields are present numbers within range. -/
lemma validateLocationData_eq_true_iff (p : Payload) :
    validateLocationData p = true ↔
      (isMissing p.lat = false ∧ isMissing p.lon = false ∧
       isMissing p.time = false ∧
       isNumber p.lat = true ∧ isNumber p.lon = true ∧
       isNumber p.time = true ∧
       -90 ≤ numVal p.lat ∧ numVal p.lat ≤ 90 ∧
       -180 ≤ numVal p.lon ∧ numVal p.lon ≤ 180) := by
  unfold validateLocationData
  split_ifs with h1 h2 h3 h4 h5 h6 h7 <;>
    simp_all [not_or, not_lt, le_refl]
  · intros
    rcases h4 with h | h <;> simp_all
  · intros
    rcases h6 with h | h <;> linarith
  · intros
    rcases h7 with h | h <;> linarith

/-- A broadcast contains no store call. -/
lemma filter_isStore_broadcastNewLocation (sessions : List String)
    (clientCount : ℕ) (now : ℤ) (d : FrontendData) :
    (broadcastNewLocation sessions clientCount now d).filter Effect.isStore = [] := by
  simp [broadcastNewLocation, Effect.isStore, List.filter_map]

/-- Membership in a broadcast: exactly the registered sessions receive
exactly the wrapped message. -/
lemma mem_broadcastNewLocation_iff (sessions : List String) (clientCount : ℕ)
    (now : ℤ) (d : FrontendData) (sid : String) (msg : LocationUpdateMessage) :
    Effect.send sid msg ∈ broadcastNewLocation sessions clientCount now d ↔
      sid ∈ sessions ∧
        msg = { type := "new-location", data := d, timestamp := now,
                totalClients := clientCount } := by
  simp only [broadcastNewLocation, List.mem_map, Effect.send.injEq]
  constructor
  · rintro ⟨a, ha, rfl, rfl⟩
    exact ⟨ha, rfl⟩
  · rintro ⟨ha, rfl⟩
    exact ⟨sid, ha, rfl, rfl⟩

/-- C1: every decoded payload missing one of `lat`, `lon`, `time`, or
whose `lat`/`lon`/`time` is not a number, or whose `lat` is outside
[-90, 90] or `lon` outside [-180, 180], is rejected by
`validateLocationData`, and the message handler then only logs: no store
call occurs and no `StoredLocation` is produced. -/
theorem C1_invalid_payload_rejected_no_store
    (store : Payload → StoreResult) (sessions : List String) (clientCount : ℕ)
    (now : ℤ) (p : Payload)
    (hbad : isMissing p.lat = true ∨ isMissing p.lon = true ∨
      isMissing p.time = true ∨ isNumber p.lat = false ∨
      isNumber p.lon = false ∨ isNumber p.time = false ∨
      numVal p.lat < -90 ∨ numVal p.lat > 90 ∨
      numVal p.lon < -180 ∨ numVal p.lon > 180) :
    validateLocationData p = false ∧
    processDatagram store sessions clientCount now (some p) =
      [Effect.log "Datos de ubicacion invalidos"] := by
  have hv : validateLocationData p = false := by
    rcases Bool.eq_false_or_eq_true (validateLocationData p) with h | h
    · exfalso
      rcases (validateLocationData_eq_true_iff p).mp h with
        ⟨m1, m2, m3, n1, n2, n3, r1, r2, r3, r4⟩
      rcases hbad with h'|h'|h'|h'|h'|h'|h'|h'|h'|h' <;>
        first | (simp_all; done) | linarith
    · exact h
  refine ⟨hv, ?_⟩
  simp [processDatagram, hv]

/-- Witness for C1 at the invalid-latitude payload `{lat: 95, lon: 0,
time: 1700000000000}`. -/
theorem C1_witness :
    validateLocationData invalidLatPayload = false ∧
    processDatagram (fun _ => StoreResult.err) ["s1"] 1 0
        (some invalidLatPayload) =
      [Effect.log "Datos de ubicacion invalidos"] :=
  C1_invalid_payload_rejected_no_store (fun _ => StoreResult.err) ["s1"] 1 0
    invalidLatPayload (by decide)

/-- Evaluation of the message handler on a valid payload whose store
fails: one store call, one log, nothing else. -/
lemma processDatagram_store_err (store : Payload → StoreResult)
    (sessions : List String) (clientCount : ℕ) (now : ℤ) (p : Payload)
    (hv : validateLocationData p = true) (hs : store p = .err) :
    processDatagram store sessions clientCount now (some p) =
      [Effect.storeCall p, Effect.log "Error procesando mensaje UDP"] := by
  simp [processDatagram, hv, hs]

/-- Evaluation of the message handler on a valid payload whose store
succeeds: the store call followed by the broadcast. -/
lemma processDatagram_store_ok (store : Payload → StoreResult)
    (sessions : List String) (clientCount : ℕ) (now : ℤ) (p : Payload)
    (savedLocation : StoredLocation)
    (hv : validateLocationData p = true) (hs : store p = .ok savedLocation) :
    processDatagram store sessions clientCount now (some p) =
      Effect.storeCall p ::
        broadcastNewLocation sessions clientCount now
          (frontendProjection savedLocation) := by
  simp [processDatagram, hv, hs]

/-- C2: for every valid payload, the message handler performs exactly one
store call, and when the store succeeds the stored result is sent to
every session registered at the moment `broadcastNewLocation` runs,
while a session absent from that snapshot receives nothing. -/
theorem C2_valid_payload_stored_once_and_broadcast
    (store : Payload → StoreResult) (sessions : List String) (clientCount : ℕ)
    (now : ℤ) (p : Payload) (hv : validateLocationData p = true) :
    ((processDatagram store sessions clientCount now (some p)).filter
        Effect.isStore = [Effect.storeCall p]) ∧
    (∀ savedLocation, store p = .ok savedLocation →
      ∀ sid ∈ sessions,
        Effect.send sid
            { type := "new-location"
              data := frontendProjection savedLocation
              timestamp := now
              totalClients := clientCount } ∈
          processDatagram store sessions clientCount now (some p)) ∧
    (∀ sid, sid ∉ sessions →
      ∀ msg, Effect.send sid msg ∉
        processDatagram store sessions clientCount now (some p)) := by
  cases hstore : store p with
  | err =>
    have he := processDatagram_store_err store sessions clientCount now p hv hstore
    refine ⟨?_, ?_, ?_⟩
    · rw [he]; rfl
    · intro savedLocation hsl
      exact absurd hsl (by simp)
    · intro sid _ msg hmem
      rw [he] at hmem
      simp at hmem
  | ok savedLocation =>
    have he := processDatagram_store_ok store sessions clientCount now p
      savedLocation hv hstore
    refine ⟨?_, ?_, ?_⟩
    · rw [he]
      simp [Effect.isStore, filter_isStore_broadcastNewLocation]
    · intro sl hsl sid hsid
      injection hsl with hh
      subst hh
      rw [he]
      exact List.mem_cons_of_mem _
        ((mem_broadcastNewLocation_iff _ _ _ _ _ _).mpr ⟨hsid, rfl⟩)
    · intro sid hsid msg hmem
      rw [he] at hmem
      rcases List.mem_cons.mp hmem with h1 | h1
      · exact absurd h1 (by simp)
      · exact hsid ((mem_broadcastNewLocation_iff _ _ _ _ _ _).mp h1).1

/-- Witness for C2 at the end-to-end scenario payload with one session. -/
theorem C2_witness :
    ((processDatagram
          (fun q => StoreResult.ok (LocationModel.create q 1 5)) ["s1"] 1 0
          (some validPayload)).filter Effect.isStore =
        [Effect.storeCall validPayload]) ∧
    Effect.send "s1"
        { type := "new-location"
          data := frontendProjection (LocationModel.create validPayload 1 5)
          timestamp := 0
          totalClients := 1 } ∈
      processDatagram (fun q => StoreResult.ok (LocationModel.create q 1 5))
        ["s1"] 1 0 (some validPayload) := by
  have h := C2_valid_payload_stored_once_and_broadcast
    (fun q => StoreResult.ok (LocationModel.create q 1 5)) ["s1"] 1 0
    validPayload (by decide)
  exact ⟨h.1, h.2.1 (LocationModel.create validPayload 1 5) rfl "s1" (by simp)⟩

/-- C3: decode failures, validation failures and store failures each make
the handler discard the datagram with only a log entry and at most the
single (never retried) store call, emitting no broadcast; the handler is
a total function (the listener does not crash) and the stream processor
handles each datagram independently of all others. -/
theorem C3_failure_isolation
    (store : Payload → StoreResult) (sessions : List String) (clientCount : ℕ)
    (now : ℤ) :
    (∀ d ds, processAll store sessions clientCount now (d :: ds) =
        processDatagram store sessions clientCount now d ++
          processAll store sessions clientCount now ds) ∧
    (processDatagram store sessions clientCount now none =
      [Effect.log "JSON invalido recibido"]) ∧
    (∀ p, validateLocationData p = false →
      processDatagram store sessions clientCount now (some p) =
        [Effect.log "Datos de ubicacion invalidos"]) ∧
    (∀ p, validateLocationData p = true → store p = .err →
      processDatagram store sessions clientCount now (some p) =
        [Effect.storeCall p, Effect.log "Error procesando mensaje UDP"]) := by
  refine ⟨fun d ds => rfl, rfl, ?_, ?_⟩
  · intro p hp
    simp [processDatagram, hp]
  · intro p hp hs
    simp [processDatagram, hp, hs]

/-- Witness for C3: a bad-JSON datagram, an invalid payload and a store
failure each produce only logs or the single store call, and the stream
is processed datagram by datagram. -/
theorem C3_witness :
    processDatagram (fun _ => StoreResult.err) ["s1"] 1 0
        (some invalidLatPayload) =
      [Effect.log "Datos de ubicacion invalidos"] ∧
    processDatagram (fun _ => StoreResult.err) ["s1"] 1 0 (some validPayload) =
      [Effect.storeCall validPayload,
       Effect.log "Error procesando mensaje UDP"] := by
  have h := C3_failure_isolation (fun _ => StoreResult.err) ["s1"] 1 0
  exact ⟨h.2.2.1 invalidLatPayload (by decide),
    h.2.2.2 validPayload (by decide) rfl⟩

/-- C4 as stated is false on the code: after a transport drop from
`connected`, the `disconnect` handler sets `connectionStatus` to
`disconnected`, not `connecting`; and after reconnection attempts are
exhausted, the `reconnect_failed` handler sets `disconnected`, not the
terminal `error` state. -/
theorem C4_counterexample :
    ((handleSocketEvent 0 initialHookState SocketEvent.connect).1.connectionStatus =
      ConnStatus.connected) ∧
    ((handleSocketEvent 1
        (handleSocketEvent 0 initialHookState SocketEvent.connect).1
        (SocketEvent.disconnect "transport close")).1.connectionStatus =
      ConnStatus.disconnected) ∧
    ((handleSocketEvent 1
        (handleSocketEvent 0 initialHookState SocketEvent.connect).1
        (SocketEvent.disconnect "transport close")).1.connectionStatus ≠
      ConnStatus.connecting) ∧
    ((handleSocketEvent 2
        (handleSocketEvent 0 initialHookState SocketEvent.connect).1
        SocketEvent.reconnectFailed).1.connectionStatus ≠
      ConnStatus.error) := by
  decide

/-- C4 amended: a transport drop moves the state from `connected` to
`disconnected`; the state becomes `connecting` when a reconnection
attempt starts; every failed connection attempt sets the `error` state
immediately (not only after exhaustion); exhaustion of all attempts
(`reconnect_failed`) leaves the state `disconnected` with a
human-readable error message; and a successful reconnect at any attempt
re-enters `connected` and emits exactly one initial-data request. -/
theorem C4_amended_reconnection_transitions (now : ℤ) (st : HookState)
    (reason msg : String) (n : ℕ) :
    ((handleSocketEvent now st (SocketEvent.disconnect reason)).1.connectionStatus =
        ConnStatus.disconnected ∧
      (handleSocketEvent now st (SocketEvent.disconnect reason)).1.isConnected =
        false) ∧
    ((handleSocketEvent now st (SocketEvent.reconnectAttempt n)).1.connectionStatus =
      ConnStatus.connecting) ∧
    ((handleSocketEvent now st (SocketEvent.connectError msg)).1.connectionStatus =
      ConnStatus.error) ∧
    ((handleSocketEvent now st SocketEvent.reconnectFailed).1.connectionStatus =
        ConnStatus.disconnected ∧
      (handleSocketEvent now st SocketEvent.reconnectFailed).1.error =
        some "No se pudo reconectar al servidor") ∧
    ((handleSocketEvent now st (SocketEvent.reconnect n)).1.connectionStatus =
        ConnStatus.connected ∧
      (handleSocketEvent now st (SocketEvent.reconnect n)).2 =
        [ClientEffect.emitEvent "request-initial-data" none]) :=
  ⟨⟨rfl, rfl⟩, rfl, rfl, ⟨rfl, rfl⟩, rfl, rfl⟩

/-- `mapGet` misses exactly when no entry has the key. -/
lemma mapGet_eq_none_iff (m : List (String × ℕ)) (e : String) :
    mapGet m e = none ↔ ∀ q ∈ m, q.1 ≠ e := by
  simp [mapGet, List.find?_eq_none]

/-- `socket.off` on a pair that is not attached is a no-op. -/
lemma removeFirst_of_not_mem {l : List (String × ℕ)} {e : String} {h : ℕ}
    (hl : (e, h) ∉ l) : removeFirst l e h = l := by
  induction l with
  | nil => rfl
  | cons x xs ih =>
    simp only [List.mem_cons, not_or] at hl
    rw [removeFirst, if_neg fun hx => hl.1 hx.symm, ih hl.2]

/-- `socket.off` on the pair just attached removes exactly it. -/
lemma removeFirst_append_of_not_mem {l : List (String × ℕ)} {e : String}
    {h : ℕ} (hl : (e, h) ∉ l) : removeFirst (l ++ [(e, h)]) e h = l := by
  induction l with
  | nil => simp [removeFirst]
  | cons x xs ih =>
    simp only [List.mem_cons, not_or] at hl
    rw [List.cons_append, removeFirst, if_neg fun hx => hl.1 hx.symm, ih hl.2]

/-- `Map.delete` on an absent key is a no-op. -/
lemma mapDelete_of_not_key {m : List (String × ℕ)} {e : String}
    (hm : ∀ q ∈ m, q.1 ≠ e) : mapDelete m e = m :=
  List.filter_eq_self.mpr fun a ha => by simpa using hm a ha

/-- `Map.delete` removes an entry appended under its key. -/
lemma mapDelete_append_single (m : List (String × ℕ)) (e : String) (h : ℕ) :
    mapDelete (m ++ [(e, h)]) e = mapDelete m e := by
  simp [mapDelete, List.filter_append]

/-- Lookup after appending a fresh key finds the appended value. -/
lemma mapGet_append_key (m : List (String × ℕ)) (e : String) (h : ℕ)
    (hm : ∀ q ∈ m, q.1 ≠ e) : mapGet (m ++ [(e, h)]) e = some h := by
  induction m with
  | nil => simp [mapGet]
  | cons x xs ih =>
    have hx : ¬ x.1 = e := hm x (List.mem_cons_self x xs)
    have ih2 := ih fun q hq => hm q (List.mem_cons_of_mem x hq)
    have hdec : (decide (x.1 = e)) = false := by simp [hx]
    rw [List.cons_append]
    simp only [mapGet] at ih2 ⊢
    rw [List.find?_cons, hdec]
    exact ih2

/-- `Map.set` on an absent key appends the entry. -/
lemma mapSet_of_not_key (m : List (String × ℕ)) (e : String) (h : ℕ)
    (hm : ∀ q ∈ m, q.1 ≠ e) : mapSet m e h = m ++ [(e, h)] := by
  have hany : (m.any fun x => x.1 = e) = false := by
    simp only [List.any_eq_false, decide_eq_true_eq]
    exact hm
  simp [mapSet, hany]

/-- `Map.set` on a key last appended replaces that entry in place. -/
lemma mapSet_append_key (m : List (String × ℕ)) (e : String) (h1 h2 : ℕ)
    (hm : ∀ q ∈ m, q.1 ≠ e) :
    mapSet (m ++ [(e, h1)]) e h2 = m ++ [(e, h2)] := by
  have hany : ((m ++ [(e, h1)]).any fun x => x.1 = e) = true := by
    simp [List.any_append]
  simp only [mapSet, hany, if_pos, List.map_append]
  congr 1
  · refine (List.map_congr_left fun q hq => ?_).trans (List.map_id m)
    simp [hm q hq]
  · simp

/-- The attached handlers for a fresh key after one attachment. -/
lemma filter_key_append (l : List (String × ℕ)) (e : String) (h : ℕ)
    (hm : ∀ q ∈ l, q.1 ≠ e) :
    ((l ++ [(e, h)]).filter fun x => x.1 = e) = [(e, h)] := by
  rw [List.filter_append]
  have h1 : (l.filter fun x => x.1 = e) = [] := by
    simp only [List.filter_eq_nil_iff, decide_eq_true_eq]
    exact hm
  simp [h1]

/-- C5 as stated is false on the code: the unsubscribe closure returned
by the first `on("location-update", h1)` is not a no-op when called after
`h1` has been replaced by `h2` — it deletes the tracker entry for the
event (while `h2` stays attached), so a further subscribe leaves two
handlers attached to the socket for the same event name. -/
theorem C5_counterexample :
    (runUnsub (onEvent { socketHandlers := [], listeners := [] }
          "location-update" 1).2
        (onEvent (onEvent { socketHandlers := [], listeners := [] }
            "location-update" 1).1 "location-update" 2).1 ≠
      (onEvent (onEvent { socketHandlers := [], listeners := [] }
          "location-update" 1).1 "location-update" 2).1) ∧
    handlersFor
        (onEvent
          (runUnsub (onEvent { socketHandlers := [], listeners := [] }
              "location-update" 1).2
            (onEvent (onEvent { socketHandlers := [], listeners := [] }
                "location-update" 1).1 "location-update" 2).1)
          "location-update" 3).1 "location-update" = [2, 3] := by
  decide

/-- C5 amended: registering a second handler for an event name replaces
the first (exactly the new handler is attached and tracked); the
unsubscribe closure is idempotent while its handler is still the current
one (a second call is a no-op); but calling the unsubscribe of a
superseded handler is not a no-op: it leaves the socket handlers
untouched (the replacement stays attached) while deleting the
replacement's tracker entry. -/
theorem C5_amended_subscription
    (st st1 st2 : ListenersState) (u1 u2 : Unsub) (e : String) (h1 h2 : ℕ)
    (hfresh : ∀ q ∈ st.socketHandlers, q.1 ≠ e)
    (hmap : mapGet st.listeners e = none)
    (hne : h1 ≠ h2)
    (hon1 : onEvent st e h1 = (st1, u1))
    (hon2 : onEvent st1 e h2 = (st2, u2)) :
    handlersFor st2 e = [h2] ∧
    mapGet st2.listeners e = some h2 ∧
    runUnsub u2 (runUnsub u2 st2) = runUnsub u2 st2 ∧
    runUnsub u1 st2 = { st2 with listeners := mapDelete st2.listeners e } ∧
    runUnsub u1 st2 ≠ st2 ∧
    handlersFor (runUnsub u1 st2) e = [h2] := by
  have hkeys : ∀ q ∈ st.listeners, q.1 ≠ e := (mapGet_eq_none_iff _ _).mp hmap
  have hnm1 : ((e, h1) : String × ℕ) ∉ st.socketHandlers := fun hmem =>
    hfresh _ hmem rfl
  have hnm2 : ((e, h2) : String × ℕ) ∉ st.socketHandlers := fun hmem =>
    hfresh _ hmem rfl
  have hu1 : u1 = ⟨e, h1⟩ := by
    have hc := congrArg Prod.snd hon1
    simp only [onEvent, hmap] at hc
    exact hc.symm
  have hst1 : st1 = { socketHandlers := st.socketHandlers ++ [(e, h1)],
                      listeners := st.listeners ++ [(e, h1)] } := by
    have hc := congrArg Prod.fst hon1
    simp only [onEvent, hmap] at hc
    rw [mapSet_of_not_key st.listeners e h1 hkeys] at hc
    exact hc.symm
  subst hu1 hst1
  have hget1 : mapGet (st.listeners ++ [(e, h1)]) e = some h1 :=
    mapGet_append_key st.listeners e h1 hkeys
  have hu2 : u2 = ⟨e, h2⟩ := by
    have hc := congrArg Prod.snd hon2
    simp only [onEvent, hget1] at hc
    exact hc.symm
  have hst2 : st2 = { socketHandlers := st.socketHandlers ++ [(e, h2)],
                      listeners := st.listeners ++ [(e, h2)] } := by
    have hc := congrArg Prod.fst hon2
    simp only [onEvent, hget1] at hc
    rw [removeFirst_append_of_not_mem hnm1,
      mapSet_append_key st.listeners e h1 h2 hkeys] at hc
    exact hc.symm
  subst hu2 hst2
  have hnm1x : ((e, h1) : String × ℕ) ∉ st.socketHandlers ++ [(e, h2)] := by
    simp only [List.mem_append, List.mem_singleton, not_or, Prod.mk.injEq]
    exact ⟨hnm1, fun hcontra => hne hcontra.2⟩
  have hdel : mapDelete (st.listeners ++ [(e, h2)]) e = st.listeners := by
    rw [mapDelete_append_single, mapDelete_of_not_key hkeys]
  have hunsub1 : runUnsub ⟨e, h1⟩
      { socketHandlers := st.socketHandlers ++ [(e, h2)],
        listeners := st.listeners ++ [(e, h2)] } =
      { socketHandlers := st.socketHandlers ++ [(e, h2)],
        listeners := st.listeners } := by
    simp only [runUnsub]
    rw [removeFirst_of_not_mem hnm1x, hdel]
  have hunsub2 : runUnsub ⟨e, h2⟩
      { socketHandlers := st.socketHandlers ++ [(e, h2)],
        listeners := st.listeners ++ [(e, h2)] } =
      { socketHandlers := st.socketHandlers, listeners := st.listeners } := by
    simp only [runUnsub]
    rw [removeFirst_append_of_not_mem hnm2, hdel]
  refine ⟨?_, ?_, ?_, ?_, ?_, ?_⟩
  · simp [handlersFor, filter_key_append st.socketHandlers e h2 hfresh]
  · exact mapGet_append_key st.listeners e h2 hkeys
  · rw [hunsub2]
    simp only [runUnsub]
    rw [removeFirst_of_not_mem hnm2, mapDelete_of_not_key hkeys]
  · rw [hunsub1, hdel]
  · rw [hunsub1]
    intro hcontra
    have hlen := congrArg (fun s => s.listeners.length) hcontra
    simp at hlen
  · rw [hunsub1]
    simp [handlersFor, filter_key_append st.socketHandlers e h2 hfresh]

/-- Witness for C5 amended, starting from the empty subscription state
with handlers 1 then 2 on `location-update`. -/
theorem C5_witness :
    handlersFor ⟨[("location-update", 2)], [("location-update", 2)]⟩
      "location-update" = [2] ∧
    mapGet [("location-update", 2)] "location-update" = some 2 ∧
    runUnsub ⟨"location-update", 2⟩
        (runUnsub ⟨"location-update", 2⟩
          ⟨[("location-update", 2)], [("location-update", 2)]⟩) =
      runUnsub ⟨"location-update", 2⟩
        ⟨[("location-update", 2)], [("location-update", 2)]⟩ ∧
    runUnsub ⟨"location-update", 1⟩
        ⟨[("location-update", 2)], [("location-update", 2)]⟩ =
      ⟨[("location-update", 2)],
        mapDelete [("location-update", 2)] "location-update"⟩ ∧
    runUnsub ⟨"location-update", 1⟩
        ⟨[("location-update", 2)], [("location-update", 2)]⟩ ≠
      (⟨[("location-update", 2)], [("location-update", 2)]⟩ : ListenersState) ∧
    handlersFor
        (runUnsub ⟨"location-update", 1⟩
          ⟨[("location-update", 2)], [("location-update", 2)]⟩)
      "location-update" = [2] :=
  C5_amended_subscription ⟨[], []⟩
    ⟨[("location-update", 1)], [("location-update", 1)]⟩
    ⟨[("location-update", 2)], [("location-update", 2)]⟩
    ⟨"location-update", 1⟩ ⟨"location-update", 2⟩ "location-update" 1 2
    (by decide) (by decide) (by decide) (by decide) (by decide)

/-- The reaper loop, fully unrolled: starting from any accumulator, the
iteration over a fixed entry list removes from the accumulated clients
and sockets exactly the keys of the expired entries, and adds the number
of expired entries to the count. -/
lemma cleanup_foldl_eq (now m : ℚ) (l : List (String × ClientInfo)) :
    ∀ (cur : SocketServiceState) (n : ℕ),
      l.foldl (cleanupStep now m) (cur, n) =
        ({ connectedClients :=
             cur.connectedClients.filter fun p => p.1 ∉ expiredKeys now m l
           sockets := cur.sockets.filter fun s => s ∉ expiredKeys now m l },
         n + (l.filter fun p => isInactive now m p.2).length) := by
  induction l with
  | nil =>
    intro cur n
    simp [expiredKeys]
  | cons x xs ih =>
    intro cur n
    rw [List.foldl_cons]
    by_cases hx : isInactive now m x.2
    · have hsock : (if cur.sockets.any fun s => s = x.1 then
          cur.sockets.filter fun s => s ≠ x.1 else cur.sockets) =
          cur.sockets.filter fun s => s ≠ x.1 := by
        by_cases hc : cur.sockets.any fun s => s = x.1
        · rw [if_pos hc]
        · rw [if_neg hc]
          simp only [List.any_eq_true, decide_eq_true_eq, not_exists,
            not_and] at hc
          refine (List.filter_eq_self.mpr fun a ha => ?_).symm
          simpa using hc a ha
      have hstep : cleanupStep now m (cur, n) x =
          ({ connectedClients := cur.connectedClients.filter fun p => p.1 ≠ x.1
             sockets := cur.sockets.filter fun s => s ≠ x.1 }, n + 1) := by
        simp only [cleanupStep, hx, if_true, hsock]
      have hkeys_cons : expiredKeys now m (x :: xs) =
          x.1 :: expiredKeys now m xs := by
        simp [expiredKeys, hx]
      have hcl : (cur.connectedClients.filter fun p => p.1 ≠ x.1).filter
          (fun p => p.1 ∉ expiredKeys now m xs) =
          cur.connectedClients.filter
            fun p => p.1 ∉ x.1 :: expiredKeys now m xs := by
        rw [List.filter_filter]
        refine List.filter_congr fun a _ => ?_
        by_cases h1 : a.1 = x.1 <;> by_cases h2 : a.1 ∈ expiredKeys now m xs <;>
          simp [h1, h2]
      have hsk : (cur.sockets.filter fun s => s ≠ x.1).filter
          (fun s => s ∉ expiredKeys now m xs) =
          cur.sockets.filter fun s => s ∉ x.1 :: expiredKeys now m xs := by
        rw [List.filter_filter]
        refine List.filter_congr fun a _ => ?_
        by_cases h1 : a = x.1 <;> by_cases h2 : a ∈ expiredKeys now m xs <;>
          simp [h1, h2]
      rw [hstep, ih, hkeys_cons]
      dsimp only
      rw [hcl, hsk]
      have hcount : ((x :: xs).filter fun p => isInactive now m p.2).length =
          (xs.filter fun p => isInactive now m p.2).length + 1 := by
        simp [hx]
      rw [hcount]
      refine congrArg (Prod.mk _) ?_
      omega
    · have hstep : cleanupStep now m (cur, n) x = (cur, n) := by
        simp [cleanupStep, hx]
      have hkeys_cons : expiredKeys now m (x :: xs) = expiredKeys now m xs := by
        simp [expiredKeys, hx]
      have hcount : ((x :: xs).filter fun p => isInactive now m p.2) =
          xs.filter fun p => isInactive now m p.2 := by
        simp [hx]
      rw [hstep, ih, hkeys_cons, hcount]

/-- C6: the reaper removes exactly the sessions whose inactivity exceeds
the threshold (closing their still-open sockets), reports their number,
and is idempotent: run again on its own result with no intervening
activity it changes nothing and cleans zero sessions. -/
theorem C6_reaper_exact_and_idempotent (now m : ℚ) (st : SocketServiceState)
    (hkeys : (st.connectedClients.map Prod.fst).Nodup) :
    ((cleanupInactiveConnections now m st).1.connectedClients =
      st.connectedClients.filter fun p => ¬ isInactive now m p.2) ∧
    ((cleanupInactiveConnections now m st).1.sockets =
      st.sockets.filter fun s => s ∉ expiredKeys now m st.connectedClients) ∧
    ((cleanupInactiveConnections now m st).2 =
      (st.connectedClients.filter fun p => isInactive now m p.2).length) ∧
    (cleanupInactiveConnections now m (cleanupInactiveConnections now m st).1 =
      ((cleanupInactiveConnections now m st).1, 0)) := by
  have hdef : ∀ s : SocketServiceState, cleanupInactiveConnections now m s =
      s.connectedClients.foldl (cleanupStep now m) (s, 0) := fun s => rfl
  have hmain := cleanup_foldl_eq now m st.connectedClients st 0
  have hclients : (cleanupInactiveConnections now m st).1.connectedClients =
      st.connectedClients.filter fun p => ¬ isInactive now m p.2 := by
    rw [hdef, hmain]
    dsimp only
    refine List.filter_congr fun p hp => ?_
    by_cases hin : isInactive now m p.2
    · have hmem : p.1 ∈ expiredKeys now m st.connectedClients := by
        simp only [expiredKeys, List.mem_map, List.mem_filter]
        exact ⟨p, ⟨hp, by simpa using hin⟩, rfl⟩
      simp [hmem, hin]
    · have hmem : p.1 ∉ expiredKeys now m st.connectedClients := by
        simp only [expiredKeys, List.mem_map, List.mem_filter, not_exists,
          not_and]
        rintro q ⟨hqmem, hq2⟩ hq1
        have hqp : q = p := List.inj_on_of_nodup_map hkeys hqmem hp hq1
        rw [hqp] at hq2
        exact hin (by simpa using hq2)
      simp [hmem, hin]
  refine ⟨hclients, ?_, ?_, ?_⟩
  · rw [hdef, hmain]
  · rw [hdef, hmain]
    simp
  · have hexp : expiredKeys now m
        (cleanupInactiveConnections now m st).1.connectedClients = [] := by
      rw [hclients]
      simp only [expiredKeys, List.filter_filter, List.map_eq_nil_iff,
        List.filter_eq_nil_iff]
      intro p _
      by_cases hin : isInactive now m p.2 <;> simp [hin]
    have hnone : ((cleanupInactiveConnections now m st).1.connectedClients.filter
        fun p => isInactive now m p.2) = [] := by
      rw [hclients, List.filter_filter]
      refine List.filter_eq_nil_iff.mpr fun p _ => ?_
      by_cases hin : isInactive now m p.2 <;> simp [hin]
    rw [hdef ((cleanupInactiveConnections now m st).1),
      cleanup_foldl_eq now m _ _ 0, hexp, hnone]
    simp

/-- Witness for C6: two sessions, one 31 minutes inactive and one 29
minutes inactive, with both sockets open; the reaper evicts exactly the
first, closes its socket, reports one cleaned session, and a second run
is a no-op. -/
theorem C6_witness :
    ((cleanupInactiveConnections 1860000 30
        ⟨[("a", ⟨0, 0⟩), ("b", ⟨0, 120000⟩)], ["a", "b"]⟩).1.connectedClients =
      [("a", ⟨0, 0⟩), ("b", ⟨0, 120000⟩)].filter
        fun p => ¬ isInactive 1860000 30 p.2) ∧
    ((cleanupInactiveConnections 1860000 30
        ⟨[("a", ⟨0, 0⟩), ("b", ⟨0, 120000⟩)], ["a", "b"]⟩).1.sockets =
      ["a", "b"].filter fun s => s ∉ expiredKeys 1860000 30
        [("a", ⟨0, 0⟩), ("b", ⟨0, 120000⟩)]) ∧
    ((cleanupInactiveConnections 1860000 30
        ⟨[("a", ⟨0, 0⟩), ("b", ⟨0, 120000⟩)], ["a", "b"]⟩).2 =
      ([("a", ⟨0, 0⟩), ("b", ⟨0, 120000⟩)].filter
        fun p => isInactive 1860000 30 p.2).length) ∧
    (cleanupInactiveConnections 1860000 30
        (cleanupInactiveConnections 1860000 30
          ⟨[("a", ⟨0, 0⟩), ("b", ⟨0, 120000⟩)], ["a", "b"]⟩).1 =
      ((cleanupInactiveConnections 1860000 30
          ⟨[("a", ⟨0, 0⟩), ("b", ⟨0, 120000⟩)], ["a", "b"]⟩).1, 0)) :=
  C6_reaper_exact_and_idempotent 1860000 30
    ⟨[("a", ⟨0, 0⟩), ("b", ⟨0, 120000⟩)], ["a", "b"]⟩ (by decide)

/-- C7: every received ping is answered with a pong carrying the server
time; a ping from a known session sets that session's last-activity to
now while leaving other sessions untouched; a ping from an unknown
session id leaves the state unchanged (a no-op, not an error). -/
theorem C7_ping_touches_and_pongs (now : ℚ) (sid : String)
    (st : SocketServiceState) :
    ((handlePing now sid st).2 = [ServerEffect.pong sid now]) ∧
    ((st.connectedClients.any fun p => p.1 = sid) = false →
      (handlePing now sid st).1 = st) ∧
    (∀ p ∈ (handlePing now sid st).1.connectedClients,
      p.1 = sid → p.2.lastActivity = now) ∧
    (∀ p ∈ (handlePing now sid st).1.connectedClients,
      p.1 ≠ sid → p ∈ st.connectedClients) := by
  refine ⟨rfl, ?_, ?_, ?_⟩
  · intro hany
    simp [handlePing, hany]
  · intro p hp hpsid
    by_cases hany : (st.connectedClients.any fun q => q.1 = sid) = true
    · simp only [handlePing, hany, if_true] at hp
      simp only [List.mem_map] at hp
      obtain ⟨q, hq, hqe⟩ := hp
      by_cases hq1 : q.1 = sid
      · rw [if_pos (by simpa using hq1)] at hqe
        rw [← hqe]
      · rw [if_neg (by simpa using hq1)] at hqe
        rw [← hqe] at hpsid
        exact absurd hpsid hq1
    · have hst : (handlePing now sid st).1 = st := by
        simp only [Bool.not_eq_true] at hany
        simp [handlePing, hany]
      rw [hst] at hp
      simp only [Bool.not_eq_true, List.any_eq_false, decide_eq_true_eq]
        at hany
      exact absurd hpsid (hany p hp)
  · intro p hp hne
    by_cases hany : (st.connectedClients.any fun q => q.1 = sid) = true
    · simp only [handlePing, hany, if_true] at hp
      simp only [List.mem_map] at hp
      obtain ⟨q, hq, hqe⟩ := hp
      by_cases hq1 : q.1 = sid
      · rw [if_pos (by simpa using hq1)] at hqe
        rw [← hqe] at hne
        exact absurd hq1 hne
      · rw [if_neg (by simpa using hq1)] at hqe
        rw [← hqe]
        exact hq
    · have hst : (handlePing now sid st).1 = st := by
        simp only [Bool.not_eq_true] at hany
        simp [handlePing, hany]
      rw [hst] at hp
      exact hp

/-- Witness for C7: a known session's ping updates its last-activity and
gets a pong; an unknown session's ping changes nothing. -/
theorem C7_witness :
    ((handlePing 7 "a" ⟨[("a", ⟨0, 0⟩)], ["a"]⟩).2 =
      [ServerEffect.pong "a" 7]) ∧
    ((handlePing 7 "zz" ⟨[("a", ⟨0, 0⟩)], ["a"]⟩).1 =
      ⟨[("a", ⟨0, 0⟩)], ["a"]⟩) ∧
    (∀ p ∈ (handlePing 7 "a" ⟨[("a", ⟨0, 0⟩)], ["a"]⟩).1.connectedClients,
      p.1 = "a" → p.2.lastActivity = 7) := by
  have h1 := C7_ping_touches_and_pongs 7 "a" ⟨[("a", ⟨0, 0⟩)], ["a"]⟩
  have h2 := C7_ping_touches_and_pongs 7 "zz" ⟨[("a", ⟨0, 0⟩)], ["a"]⟩
  exact ⟨h1.1, h2.2.1 (by decide), h1.2.2.1⟩

/-- C8: `LocationModel.create` runs every optional field through
`|| null`: a supplied numeric accuracy/altitude/speed equal to 0, or a
supplied empty provider string, is stored as SQL `NULL`; every other
supplied numeric value or string is stored unchanged. -/
theorem C8_falsy_optional_fields_nulled (p : Payload) (id : ℕ)
    (created_at : ℤ) (a al sp : ℚ) (pr : String) :
    (p.acc = some (.num a) →
      (LocationModel.create p id created_at).accuracy =
        if a = 0 then none else some (.num a)) ∧
    (p.alt = some (.num al) →
      (LocationModel.create p id created_at).altitude =
        if al = 0 then none else some (.num al)) ∧
    (p.spd = some (.num sp) →
      (LocationModel.create p id created_at).speed =
        if sp = 0 then none else some (.num sp)) ∧
    (p.prov = some (.str pr) →
      (LocationModel.create p id created_at).provider =
        if pr = "" then none else some (.str pr)) := by
  refine ⟨?_, ?_, ?_, ?_⟩
  · intro h
    by_cases ha : a = 0 <;>
      simp [LocationModel.create, h, orNull, jsTruthy, ha]
  · intro h
    by_cases ha : al = 0 <;>
      simp [LocationModel.create, h, orNull, jsTruthy, ha]
  · intro h
    by_cases ha : sp = 0 <;>
      simp [LocationModel.create, h, orNull, jsTruthy, ha]
  · intro h
    by_cases ha : pr = "" <;>
      simp [LocationModel.create, h, orNull, jsTruthy, ha]

/-- Witness for C8: accuracy 0 and the empty provider become `NULL`,
while altitude 3 is stored unchanged. -/
theorem C8_witness :
    (LocationModel.create falsyOptionalsPayload 1 5).accuracy = none ∧
    (LocationModel.create falsyOptionalsPayload 1 5).altitude =
      some (.num 3) ∧
    (LocationModel.create falsyOptionalsPayload 1 5).speed = none ∧
    (LocationModel.create falsyOptionalsPayload 1 5).provider = none := by
  have h := C8_falsy_optional_fields_nulled falsyOptionalsPayload 1 5 0 3 0 ""
  refine ⟨?_, ?_, ?_, ?_⟩
  · rw [h.1 rfl]; decide
  · rw [h.2.1 rfl]; decide
  · rw [h.2.2.1 rfl]; decide
  · rw [h.2.2.2 rfl]; decide

/-- C9: every `location-update` send emitted by the message handler
carries as its `data` exactly the five-field projection
`{id, latitude, longitude, timestamp_value, created_at}` of the stored
row, and that projection is independent of the stored row's accuracy,
altitude, speed and provider — those fields are never delivered. -/
theorem C9_broadcast_carries_only_projection
    (store : Payload → StoreResult) (sessions : List String) (clientCount : ℕ)
    (now : ℤ) (msg : Option Payload) :
    (∀ e ∈ processDatagram store sessions clientCount now msg,
      ∀ sid m2, e = Effect.send sid m2 →
        ∃ p savedLocation, msg = some p ∧ store p = .ok savedLocation ∧
          m2.data = frontendProjection savedLocation) ∧
    (∀ s a b c d,
      frontendProjection
          { s with accuracy := a, altitude := b, speed := c, provider := d } =
        frontendProjection s) := by
  constructor
  · intro e he sid m2 hee
    subst hee
    cases msg with
    | none => simp [processDatagram] at he
    | some p =>
      by_cases hv : validateLocationData p = true
      · cases hstore : store p with
        | err =>
          rw [processDatagram_store_err store sessions clientCount now p hv
            hstore] at he
          simp at he
        | ok savedLocation =>
          rw [processDatagram_store_ok store sessions clientCount now p
            savedLocation hv hstore] at he
          rcases List.mem_cons.mp he with h1 | h1
          · exact absurd h1 (by simp)
          · have hm := (mem_broadcastNewLocation_iff _ _ _ _ _ _).mp h1
            exact ⟨p, savedLocation, rfl, hstore, by rw [hm.2]⟩
      · have hvf : validateLocationData p = false := by
          rcases Bool.eq_false_or_eq_true (validateLocationData p) with h | h
          · exact absurd h hv
          · exact h
        simp [processDatagram, hvf] at he
  · intro s a b c d
    rfl

/-- Witness for C9 at the end-to-end payload: the delivered message's
`data` is the projection of the stored row. -/
theorem C9_witness :
    ∃ p savedLocation, (some validPayload : Option Payload) = some p ∧
      (fun q => StoreResult.ok (LocationModel.create q 1 5)) p =
        StoreResult.ok savedLocation ∧
      ({ type := "new-location"
         data := frontendProjection (LocationModel.create validPayload 1 5)
         timestamp := 0
         totalClients := 1 } : LocationUpdateMessage).data =
        frontendProjection savedLocation := by
  refine (C9_broadcast_carries_only_projection
      (fun q => StoreResult.ok (LocationModel.create q 1 5)) ["s1"] 1 0
      (some validPayload)).1
    (Effect.send "s1"
      { type := "new-location"
        data := frontendProjection (LocationModel.create validPayload 1 5)
        timestamp := 0
        totalClients := 1 }) ?_ "s1" _ rfl
  rw [processDatagram_store_ok _ ["s1"] 1 0 validPayload
    (LocationModel.create validPayload 1 5) (by decide) rfl]
  exact List.mem_cons_of_mem _
    ((mem_broadcastNewLocation_iff _ _ _ _ _ _).mpr ⟨by simp, rfl⟩)

/-- C10: the hook's `emit` attempts the send exactly when a socket exists
and its transport is connected, and its boolean result is `true` exactly
when the send was attempted. -/
theorem C10_emit_gated_by_connected (sock : Option ClientSocket)
    (eventName : String) (data : Option JSVal) :
    ((emitFn sock eventName data).1 = true ↔
      (emitFn sock eventName data).2 =
        [ClientEffect.emitEvent eventName data]) ∧
    ((emitFn sock eventName data).1 = true ↔
      ∃ s, sock = some s ∧ s.connected = true) ∧
    ((emitFn sock eventName data).1 = false →
      (emitFn sock eventName data).2 = []) := by
  cases sock with
  | none => simp [emitFn]
  | some s => cases hcv : s.connected <;> simp [emitFn, hcv]

/-- Witness for C10: with a connected socket the send is attempted. -/
theorem C10_witness :
    (emitFn (some ⟨true⟩) "ping" none).2 =
      [ClientEffect.emitEvent "ping" none] :=
  (C10_emit_gated_by_connected (some ⟨true⟩) "ping" none).1.mp rfl

end AppAWS
